import Mathlib

/-
Verification of the AdventureWorks revenue-prediction pipeline
(src/scripts/model_manager.py, src/scripts/train_and_save.py,
web/backend/main.py, web/backend/config.py, web/backend/models.py).

Shallow embedding conventions:
 - a pandas DataFrame is a list of column names plus one association list
   of (column name, cell) per row, kept in pandas column order
   (assignment of a fresh column appends it at the end, dropping a column
   removes it in place);
 - numeric floats are modelled as exact rationals; the value of
   scipy.special.boxcox(x, lam) for admissible x is kept symbolically as
   the cell constructor bc x lam (an exact real number the code never
   inspects, only feeds to the opaque regressor), while the silent
   non-finite floats (nan, inf) the same call produces for inadmissible x
   are collapsed into the single missing-value cell na, matching how the
   code treats them (no exception, value propagates);
 - Python exceptions are Except values; the kind of exception is kept
   only as precisely as the verified claims need it.
-/

namespace AW

/-- One pandas cell. na stands for a missing value or a non-finite float
(nan or an infinity); date y m d is a validated timestamp; bc x lam is the
exact real value of scipy.special.boxcox at a positive argument x with
exponent lam, kept symbolically because the code only ever passes it to
the opaque regressor. -/
inductive Cell where
  | str : String → Cell
  | na : Cell
  | int : Int → Cell
  | rat : ℚ → Cell
  | date : Int → Int → Int → Cell
  | bc : ℚ → ℚ → Cell
deriving DecidableEq, Repr

/-- The Python exceptions the embedded code can raise. -/
inductive PyErr where
  | parse : PyErr
  | typeErr : PyErr
  | valueErr : PyErr
  | featureMismatch : PyErr
  | notLoaded : PyErr
  | fileNotFound : String → PyErr
  | keyErr : String → PyErr
  | attrErr : PyErr
  | indexErr : PyErr
deriving DecidableEq, Repr

/-- One DataFrame row: cells keyed by column name, in column order. -/
abbrev Row : Type := List (String × Cell)

/-- Read a cell from a row by column name (first match; absent keys give
the missing value, unreachable where the code has checked presence). -/
def rget (r : Row) (k : String) : Cell :=
  ((List.find? (fun p => p.1 == k) r).map (fun p => p.2)).getD Cell.na

/-- Pandas column assignment on one row: replace the cell in place when
the column exists, otherwise append the new column at the end. -/
def rset (r : Row) (k : String) (c : Cell) : Row :=
  if List.any r (fun p => p.1 == k) then
    List.map (fun p => if p.1 == k then (k, c) else p) r
  else r ++ [(k, c)]

/-- Pandas column drop on one row. -/
def rdrop (r : Row) (k : String) : Row :=
  List.filter (fun p => ¬ (p.1 == k)) r

/-- A pandas DataFrame: ordered column names and the rows. -/
structure DataFrame where
  cols : List String
  rows : List Row
deriving DecidableEq, Repr, Inhabited

/-- Column-list effect of pandas column assignment. -/
def colset (cs : List String) (k : String) : List String :=
  if cs.contains k then cs else cs ++ [k]

/-- Column-list effect of pandas column drop. -/
def coldrop (cs : List String) (k : String) : List String :=
  List.filter (fun c => ¬ (c == k)) cs

/-- Step 1 of preprocess_new_data on one row: pd.to_datetime on the
OrderDate cell (only validated date cells parse), extraction of Year,
Month and Day, then drop of OrderDate
(model_manager.py lines 248 to 253). -/
def dateRow (r : Row) : Except PyErr Row :=
  match rget r "OrderDate" with
  | Cell.date y m d =>
      Except.ok (rdrop (rset (rset (rset (rset r "OrderDate" (Cell.date y m d))
        "Year" (Cell.int y)) "Month" (Cell.int m)) "Day" (Cell.int d)) "OrderDate")
  | _ => Except.error PyErr.parse

/-- Step 1 of preprocess_new_data: date feature extraction, skipped when
the OrderDate column is absent. -/
def dateStep (df : DataFrame) : Except PyErr DataFrame :=
  if df.cols.contains "OrderDate" then do
    let rows ← List.mapM dateRow df.rows
    Except.ok ⟨coldrop (colset (colset (colset df.cols "Year") "Month") "Day") "OrderDate", rows⟩
  else Except.ok df

/-- fillna for the ProductLine sentinel category
(model_manager.py line 257). -/
def fillCell : Cell → Cell
  | Cell.na => Cell.str "Unidentified"
  | c => c

/-- Step 2 of preprocess_new_data: ProductLine missing-value imputation,
skipped when the column is absent (model_manager.py lines 256 to 257). -/
def fillStep (df : DataFrame) : DataFrame :=
  if df.cols.contains "ProductLine" then
    ⟨df.cols, List.map (fun r => rset r "ProductLine" (fillCell (rget r "ProductLine"))) df.rows⟩
  else df

/-- scipy.special.boxcox at a fixed exponent, elementwise: the exact real
value for x strictly positive (and for x = 0 with a positive exponent,
where it is the finite number -1/lam), and a silently produced non-finite
float (nan for negative x, an infinity at x = 0 with nonpositive
exponent) otherwise. scipy.stats.boxcox with the lmbda argument supplied
defers to this function without any domain validation. -/
def specialBoxcox (x lam : ℚ) : Cell :=
  if 0 < x ∨ (x = 0 ∧ 0 < lam) then Cell.bc x lam else Cell.na

/-- Step 3 of preprocess_new_data on one row: Box-Cox with the frozen
fitted exponent applied to the OrderQty cell, new OrderQty_boxcox column
appended, raw OrderQty dropped (model_manager.py lines 260 to 262).
A nan quantity propagates as nan; a non-numeric cell is a numpy type
error. -/
def bcRow (lam : ℚ) (r : Row) : Except PyErr Row :=
  match rget r "OrderQty" with
  | Cell.int n => Except.ok (rdrop (rset r "OrderQty_boxcox" (specialBoxcox (n : ℚ) lam)) "OrderQty")
  | Cell.rat q => Except.ok (rdrop (rset r "OrderQty_boxcox" (specialBoxcox q lam)) "OrderQty")
  | Cell.na => Except.ok (rdrop (rset r "OrderQty_boxcox" Cell.na) "OrderQty")
  | _ => Except.error PyErr.typeErr

/-- Step 3 of preprocess_new_data: Box-Cox transform of OrderQty with the
frozen exponent, skipped when the column is absent. -/
def boxcoxStep (lam : ℚ) (df : DataFrame) : Except PyErr DataFrame :=
  if df.cols.contains "OrderQty" then do
    let rows ← List.mapM (bcRow lam) df.rows
    Except.ok ⟨coldrop (colset df.cols "OrderQty_boxcox") "OrderQty", rows⟩
  else Except.ok df

/-- A fitted sklearn OneHotEncoder: for each input feature, in fit order,
the list of fitted categories. handle_unknown is the ignore policy fixed
at train time (train_and_save.py line 117). -/
structure OneHotEnc where
  features : List (String × List Cell)
deriving DecidableEq, Repr, Inhabited

/-- The designated categorical columns of the pipeline
(model_manager.py line 265, train_and_save.py line 116). -/
def ohe_cols : List String :=
  ["PersonType", "ProductLine", "Name_territory", "CountryRegionCode", "Group"]

/-- The feature names the encoder was fitted on. -/
def featureNames (e : OneHotEnc) : List String :=
  List.map (fun fc => fc.1) e.features

/-- Name of a fitted category as used inside indicator column names. -/
def catName : Cell → String
  | Cell.str s => s
  | Cell.na => "nan"
  | _ => "cat"

/-- get_feature_names_out of the fitted encoder: one indicator column per
fitted category, named feature underscore category. -/
def oheOutNames (e : OneHotEnc) : List String :=
  List.flatten (List.map (fun fc => List.map (fun c => fc.1 ++ "_" ++ catName c) fc.2) e.features)

/-- The indicator block one fitted feature contributes to one encoded
row: 1 for the fitted category equal to the row value, 0 elsewhere, so an
unseen value gives an all-zero block (handle_unknown ignore). -/
def encodeBlock (fc : String × List Cell) (r : Row) : Row :=
  List.map (fun c => (fc.1 ++ "_" ++ catName c, Cell.rat (if rget r fc.1 = c then 1 else 0))) fc.2

/-- Step 4 of preprocess_new_data: one-hot expansion
(model_manager.py lines 265 to 276). The columns handed to the fitted
encoder are the designated ones present in the frame; sklearn transform
validates that they equal the fitted feature list (count and names) and
raises otherwise; with all of them absent the step is skipped entirely.
On success the encoded frame replaces the consumed columns, indicator
columns appended at the end. -/
def oheStep (e : OneHotEnc) (df : DataFrame) : Except PyErr DataFrame :=
  let avail := List.filter (fun c => df.cols.contains c) ohe_cols
  if avail.isEmpty then Except.ok df
  else if avail = featureNames e then
    Except.ok ⟨(List.filter (fun c => ¬ avail.contains c) df.cols) ++ oheOutNames e,
      List.map (fun r =>
        (List.foldl rdrop r avail) ++ List.flatten (List.map (fun fc => encodeBlock fc r) e.features))
        df.rows⟩
  else Except.error PyErr.featureMismatch

/-- Association-list lookup by string key (first match), modelling a
pandas Series map with a unique index. -/
def alookup {α : Type} (l : List (String × α)) (k : String) : Option α :=
  (List.find? (fun p => p.1 == k) l).map (fun p => p.2)

/-- Step 5 of preprocess_new_data on one cell: target-encoding lookup of
the product name in the fitted mean table with the overall-mean fallback
(map then fillna, model_manager.py lines 280 to 281); a missing or
non-string name falls through to the fallback. -/
def targetCell (tbl : List (String × ℚ)) (ov : ℚ) : Cell → Cell
  | Cell.str s => Cell.rat ((alookup tbl s).getD ov)
  | _ => Cell.rat ov

/-- Step 5 of preprocess_new_data: target encoding of Name, new column
appended, raw Name dropped, skipped when Name is absent
(model_manager.py lines 279 to 282). -/
def targetStep (tbl : List (String × ℚ)) (ov : ℚ) (df : DataFrame) : DataFrame :=
  if df.cols.contains "Name" then
    ⟨coldrop (colset df.cols "Name_target_encoded") "Name",
     List.map (fun r => rdrop (rset r "Name_target_encoded" (targetCell tbl ov (rget r "Name"))) "Name") df.rows⟩
  else df

/-- The whole body of preprocess_new_data once the artifacts are
available (model_manager.py lines 246 to 284), acting on the internal
copy of the caller frame. -/
def preprocessWith (e : OneHotEnc) (lam : ℚ) (tbl : List (String × ℚ)) (ov : ℚ)
    (df : DataFrame) : Except PyErr DataFrame := do
  let d1 ← dateStep df
  let d2 := fillStep d1
  let d3 ← boxcoxStep lam d2
  let d4 ← oheStep e d3
  Except.ok (targetStep tbl ov d4)

/-- A persisted blob as joblib deserializes it: either a trained
regressor (an opaque row-to-number function), the preprocessing
dictionary with its four components, or some other structure that
deserializes but has the wrong shape. -/
inductive Blob where
  | model : (Row → ℚ) → Blob
  | preproc : OneHotEnc → ℚ → List (String × ℚ) → ℚ → Blob
  | other : Blob

/-- The mutable fields of a ModelManager instance
(model_manager.py lines 39 to 43). -/
structure ModelManager where
  model : Option Blob
  ohe : Option OneHotEnc
  fitted_lambda : Option ℚ
  product_target_mean : Option (List (String × ℚ))
  overall_mean : Option ℚ

/-- A freshly constructed ModelManager: every component is None. -/
def ModelManager.empty : ModelManager :=
  ⟨none, none, none, none, none⟩

/-- preprocess_new_data (model_manager.py lines 230 to 284): raises
ValueError when the preprocessing components are not loaded (the source
tests ohe and fitted_lambda; the target-encoding step would raise a
TypeError or ValueError on a missing mean table or overall mean, modelled
here coarsely as a type error), otherwise runs the five transform steps
on a copy of the caller frame. -/
def preprocess_new_data (st : ModelManager) (new_data_df : DataFrame) :
    Except PyErr DataFrame :=
  match st.ohe, st.fitted_lambda with
  | some e, some lam =>
      match st.product_target_mean, st.overall_mean with
      | some tbl, some ov => preprocessWith e lam tbl ov new_data_df
      | _, _ => Except.error PyErr.typeErr
  | _, _ => Except.error PyErr.notLoaded

/-- predict (model_manager.py lines 287 to 310): ValueError when no model
is loaded, then preprocess, then the regressor on every processed row; a
loaded blob that is not a regressor fails with an attribute error. -/
def ModelManager.predict (st : ModelManager) (new_data_df : DataFrame) :
    Except PyErr (List ℚ) :=
  match st.model with
  | none => Except.error PyErr.notLoaded
  | some b => do
      let processed ← preprocess_new_data st new_data_df
      match b with
      | Blob.model f => Except.ok (List.map f processed.rows)
      | _ => Except.error PyErr.attrErr

/-- The artifact store: named blobs on disk. -/
abbrev Store : Type := List (String × Blob)

/-- Lookup of a stored blob by filename. -/
def Store.read (store : Store) (filename : String) : Option Blob :=
  (List.find? (fun p => p.1 == filename) store).map (fun p => p.2)

/-- load_model_joblib (model_manager.py lines 100 to 117): deserialize
the named blob, whatever its shape, or fail with the file-not-found
error naming the file. -/
def load_model_joblib (store : Store) (filename : String) : Except PyErr Blob :=
  match store.read filename with
  | some b => Except.ok b
  | none => Except.error (PyErr.fileNotFound filename)

/-- load_preprocessing_components (model_manager.py lines 150 to 172):
read the named blob and unpack the four components into the manager
fields; a missing file fails with the file-not-found error, a blob of the
wrong shape fails on the first dictionary access with the manager fields
untouched. Returns the manager state after the call together with the
result. -/
def load_preprocessing_components (store : Store) (st : ModelManager)
    (filename : String) : ModelManager × Except PyErr (OneHotEnc × ℚ × List (String × ℚ) × ℚ) :=
  match store.read filename with
  | none => (st, Except.error (PyErr.fileNotFound filename))
  | some (Blob.preproc e lam tbl ov) =>
      ({ st with ohe := some e, fitted_lambda := some lam,
                 product_target_mean := some tbl, overall_mean := some ov },
       Except.ok (e, lam, tbl, ov))
  | some _ => (st, Except.error (PyErr.keyErr "ohe"))

/-- load_complete_pipeline (model_manager.py lines 207 to 227): load the
model blob first and assign it to self.model, then load the
preprocessing components. Returns the manager state after the call
together with the result: note the model assignment happens before the
preprocessing load, so a failure in the second half leaves the model
half already loaded. -/
def load_complete_pipeline (store : Store) (st : ModelManager) (model_name : String) :
    ModelManager × Except PyErr (Blob × (OneHotEnc × ℚ × List (String × ℚ) × ℚ)) :=
  match load_model_joblib store (model_name ++ "_model.joblib") with
  | Except.error e => (st, Except.error e)
  | Except.ok b =>
      let st1 := { st with model := some b }
      match load_preprocessing_components store st1 (model_name ++ "_preprocessing.joblib") with
      | (st2, Except.error e) => (st2, Except.error e)
      | (st2, Except.ok p) => (st2, Except.ok (b, p))

/-- A validated request body for the prediction endpoints
(web/backend/models.py, class PredictionInput): every field is required,
OrderQty is an integer and OrderDate a validated calendar date. -/
structure PredictionInput where
  PersonType : String
  OrderQty : Int
  Name : String
  ProductLine : String
  Name_territory : String
  CountryRegionCode : String
  Group : String
  OrderDate : Int × Int × Int
deriving DecidableEq, Repr

/-- The row pd.DataFrame builds from one validated record dictionary,
keys in pydantic field order. -/
def recordRow (r : PredictionInput) : Row :=
  [("PersonType", Cell.str r.PersonType),
   ("OrderQty", Cell.int r.OrderQty),
   ("Name", Cell.str r.Name),
   ("ProductLine", Cell.str r.ProductLine),
   ("Name_territory", Cell.str r.Name_territory),
   ("CountryRegionCode", Cell.str r.CountryRegionCode),
   ("Group", Cell.str r.Group),
   ("OrderDate", Cell.date r.OrderDate.1 r.OrderDate.2.1 r.OrderDate.2.2)]

/-- The input columns of a frame built from validated records. -/
def inputCols : List String :=
  ["PersonType", "OrderQty", "Name", "ProductLine", "Name_territory",
   "CountryRegionCode", "Group", "OrderDate"]

/-- pd.DataFrame over a list of validated record dictionaries
(main.py lines 135 and 179 to 180). -/
def toDF (rs : List PredictionInput) : DataFrame :=
  ⟨inputCols, List.map recordRow rs⟩

/-- An exception in flight inside an endpoint body: either a raised
fastapi HTTPException or an ordinary Python exception, with the message
str produces for it. -/
inductive Exc where
  | http : Nat → String → Exc
  | py : PyErr → Exc

/-- The message str(e) yields for an ordinary exception, kept only as
precisely as the claims need. -/
def pyErrStr : PyErr → String
  | PyErr.fileNotFound p => "No such file or directory: " ++ p
  | PyErr.featureMismatch => "The feature names should match those that were passed during fit"
  | PyErr.notLoaded => "Chua load components"
  | PyErr.keyErr k => "KeyError: " ++ k
  | _ => "error"

/-- str(e) at the except clause of the endpoints: a starlette
HTTPException prints as status colon detail. -/
def excStr : Exc → String
  | Exc.http s d => toString s ++ ": " ++ d
  | Exc.py e => pyErrStr e

/-- An HTTP response from an endpoint: a success body or an HTTP error
with its status code and detail. -/
inductive Resp (α : Type) where
  | ok : α → Resp α
  | httpError : Nat → String → Resp α

/-- Body of a successful single prediction (timestamp and model name,
which carry no verified content, omitted). -/
structure PredOut where
  prediction : ℚ
  input_data : PredictionInput

/-- The try block of the predict endpoint (main.py lines 121 to 148):
503 when the manager or its model is missing, then the manager predict,
then indexing the first prediction. -/
def predictRevenueTry (appMgr : Option ModelManager) (inp : PredictionInput) :
    Except Exc PredOut :=
  match appMgr with
  | none => Except.error (Exc.http 503 "Model not loaded. Please check server logs.")
  | some mgr =>
      match mgr.model with
      | none => Except.error (Exc.http 503 "Model not loaded. Please check server logs.")
      | some _ =>
          match ModelManager.predict mgr (toDF [inp]) with
          | Except.error e => Except.error (Exc.py e)
          | Except.ok preds =>
              match preds.head? with
              | some p => Except.ok ⟨p, inp⟩
              | none => Except.error (Exc.py PyErr.indexErr)

/-- predict_revenue (main.py lines 107 to 155): the try body with its
catch-all except clause, which converts EVERY exception, the 503
HTTPException raised inside the try included, into a 400 HTTPException
whose detail wraps str(e). -/
def predict_revenue (appMgr : Option ModelManager) (inp : PredictionInput) :
    Resp PredOut :=
  match predictRevenueTry appMgr inp with
  | Except.ok out => Resp.ok out
  | Except.error e => Resp.httpError 400 ("Prediction failed: " ++ excStr e)

/-- One entry of a batch response (main.py lines 186 to 192). -/
structure BatchItem where
  index : Nat
  prediction : ℚ
  input_data : PredictionInput

/-- Body of a successful batch prediction (timestamp omitted). -/
structure BatchOut where
  total_records : Nat
  predictions : List BatchItem

/-- The try block of the batch endpoint (main.py lines 165 to 201): 503
when the manager or its model is missing, one frame from all records,
one predict call, then the zip of inputs with predictions, enumerated. -/
def predictRevenueBatchTry (appMgr : Option ModelManager)
    (data : List PredictionInput) : Except Exc BatchOut :=
  match appMgr with
  | none => Except.error (Exc.http 503 "Model not loaded. Please check server logs.")
  | some mgr =>
      match mgr.model with
      | none => Except.error (Exc.http 503 "Model not loaded. Please check server logs.")
      | some _ =>
          match ModelManager.predict mgr (toDF data) with
          | Except.error e => Except.error (Exc.py e)
          | Except.ok preds =>
              let results := List.map (fun ip => BatchItem.mk ip.1 ip.2.2 ip.2.1)
                (List.enum (List.zip data preds))
              Except.ok ⟨results.length, results⟩

/-- predict_revenue_batch (main.py lines 158 to 208): the try body with
the same catch-all except clause converting every exception into a 400
HTTPException. -/
def predict_revenue_batch (appMgr : Option ModelManager)
    (data : List PredictionInput) : Resp BatchOut :=
  match predictRevenueBatchTry appMgr data with
  | Except.ok out => Resp.ok out
  | Except.error e => Resp.httpError 400 ("Batch prediction failed: " ++ excStr e)

/-- The JSON body and status the global exception handler produces. -/
structure ErrorBody where
  status : Nat
  success : Bool
  error : String
  detail : String
deriving DecidableEq, Repr

/-- Settings.DEBUG as shipped (web/backend/config.py line 33). -/
def settings_DEBUG : Bool := true

/-- The global exception handler parametrised by the DEBUG flag
(main.py lines 211 to 222): a 500 response whose detail echoes str(exc)
when DEBUG is set and is the generic sentence otherwise. -/
def handlerWith (debug : Bool) (excMsg : String) : ErrorBody :=
  ⟨500, false, "Internal server error", if debug then excMsg else "An error occurred"⟩

/-- global_exception_handler as deployed, reading Settings.DEBUG. -/
def global_exception_handler (excMsg : String) : ErrorBody :=
  handlerWith settings_DEBUG excMsg

/-- The cells of one column of a frame. -/
def getColCells (df : DataFrame) (k : String) : List Cell :=
  List.map (fun r => rget r k) df.rows

/-- A numeric cell as an exact rational; anything else is a numpy or
pandas type error. -/
def cellRat : Cell → Except PyErr ℚ
  | Cell.int n => Except.ok (n : ℚ)
  | Cell.rat q => Except.ok q
  | _ => Except.error PyErr.typeErr

/-- scipy.stats.boxcox with lmbda omitted, on the training quantity
column (train_and_save.py line 108): after the scipy validation (data
must not be empty for the two-value unpacking, must not be constant,
must be strictly positive) the maximum-likelihood exponent is estimated
by scipy's numeric optimizer, which the embedding takes as the function
parameter mleFn, and the column is transformed with that exponent.
Missing or non-numeric training quantities are modelled as a type
error. -/
def statsBoxcoxFit (mleFn : List ℚ → ℚ) (xs : List Cell) :
    Except PyErr (ℚ × List Cell) := do
  let qs ← List.mapM cellRat xs
  match qs with
  | [] => Except.error PyErr.valueErr
  | q0 :: _ =>
      if List.all qs (fun q => q = q0) then Except.error PyErr.valueErr
      else if List.any qs (fun q => q ≤ 0) then Except.error PyErr.valueErr
      else
        let lam := mleFn qs
        Except.ok (lam, List.map (fun q => specialBoxcox q lam) qs)

/-- Lexicographic order on code points, the order numpy sorts string
categories by. -/
def charListLe : List Char → List Char → Bool
  | [], _ => true
  | _ :: _, [] => false
  | a :: as, b :: bs =>
      if a.val < b.val then true
      else if b.val < a.val then false
      else charListLe as bs

/-- Lexicographic order on strings. -/
def strLe (a b : String) : Bool :=
  charListLe a.data b.data

/-- The fitted categories of one training column, as
OneHotEncoder.fit collects them: the distinct string values in sorted
order, with the missing value as an extra trailing category when
present. -/
def oheFitCol (cells : List Cell) : List Cell :=
  let strs := List.dedup (List.insertionSort (fun a b => strLe a b = true)
    (List.filterMap (fun c => match c with | Cell.str s => some s | _ => none) cells))
  (List.map Cell.str strs) ++ (if cells.contains Cell.na then [Cell.na] else [])

/-- ohe.fit(train_df[ohe_cols]) (train_and_save.py lines 117 to 118):
fit one category list per designated column, reading the training
partition only; selecting a missing column is a pandas key error. -/
def oheFit (df : DataFrame) : Except PyErr OneHotEnc :=
  if List.all ohe_cols (fun c => df.cols.contains c) then
    Except.ok ⟨List.map (fun c => (c, oheFitCol (getColCells df c))) ohe_cols⟩
  else Except.error (PyErr.keyErr "ohe_cols")

/-- The mean of a numeric column as pandas computes it, missing values
skipped; an all-missing or empty column (a nan mean) and non-numeric
cells are modelled as errors, none of which a well-formed training table
reaches. -/
def colMeanQ (cells : List Cell) : Except PyErr ℚ := do
  let qs ← List.mapM cellRat (List.filter (fun c => ¬ (c == Cell.na)) cells)
  match qs with
  | [] => Except.error PyErr.valueErr
  | _ => Except.ok ((List.foldr (fun a b => a + b) 0 qs) / (qs.length : ℚ))

/-- train_df.groupby(key)[val].mean() (train_and_save.py line 134): the
per-group means of the value column, groups being the distinct string
keys in sorted order (pandas drops missing-value groups). -/
def groupbyMean (df : DataFrame) (key val : String) : Except PyErr (List (String × ℚ)) :=
  let names := List.dedup (List.insertionSort (fun a b => strLe a b = true)
    (List.filterMap (fun c => match c with | Cell.str s => some s | _ => none)
      (getColCells df key)))
  List.mapM (fun n => do
    let m ← colMeanQ (List.filterMap
      (fun r => if rget r key = Cell.str n then some (rget r val) else none) df.rows)
    Except.ok (n, m)) names

/-- The four fitted preprocessing parameters train_model persists. -/
structure FittedParams where
  ohe : OneHotEnc
  fitted_lambda : ℚ
  product_target_mean : List (String × ℚ)
  overall_mean : ℚ
deriving DecidableEq, Repr, Inhabited

/-- Lines 109 and 113 of train_and_save.py on the evaluation partition:
Box-Cox with the already-fitted exponent on the quantity column (whose
absence would be a pandas key error), raw column dropped. -/
def testBoxcox (lam : ℚ) (test_df : DataFrame) : Except PyErr DataFrame :=
  if test_df.cols.contains "OrderQty" then boxcoxStep lam test_df
  else Except.error (PyErr.keyErr "OrderQty")

/-- The transformation of the evaluation partition with the four frozen
parameters: Box-Cox with the fitted exponent, one-hot with the fitted
encoder, target encoding with the fitted table and fallback. -/
def applyTestTransform (p : FittedParams) (df : DataFrame) : Except PyErr DataFrame := do
  let t1 ← testBoxcox p.fitted_lambda df
  let t2 ← oheStep p.ohe t1
  Except.ok (targetStep p.product_target_mean p.overall_mean t2)

/-- The training partition after lines 108 and 112 of train_and_save.py:
the fitted transformed quantity column assigned, the raw one dropped. -/
def trainBox (train_df : DataFrame) (fl : ℚ × List Cell) : DataFrame :=
  ⟨coldrop (colset train_df.cols "OrderQty_boxcox") "OrderQty",
   List.map (fun rc => rdrop (rset rc.1 "OrderQty_boxcox" rc.2) "OrderQty")
     (List.zip train_df.rows fl.2)⟩

/-- The fitting portion of train_model (train_and_save.py lines 107 to
146), taking the two partitions after the fixed-seed split (line 102) as
inputs: fit the Box-Cox exponent on the training partition and transform
both partitions with it, fit the one-hot vocabulary on the (transformed)
training partition and transform both with it, compute the
target-encoding table and the overall mean from the training partition
and encode both with them. Returns the four fitted parameters and both
transformed partitions; the model fit and the metric report that follow
consume only these outputs. -/
def train_model_core (mleFn : List ℚ → ℚ) (train_df test_df : DataFrame) :
    Except PyErr (FittedParams × DataFrame × DataFrame) := do
  let fl ← statsBoxcoxFit mleFn (getColCells train_df "OrderQty")
  let test1 ← testBoxcox fl.1 test_df
  let ohe ← oheFit (trainBox train_df fl)
  let train2 ← oheStep ohe (trainBox train_df fl)
  let test2 ← oheStep ohe test1
  let product_target_mean ← groupbyMean train2 "Name" "TotalDue"
  let overall_mean ← colMeanQ (getColCells train2 "TotalDue")
  Except.ok (⟨ohe, fl.1, product_target_mean, overall_mean⟩,
    targetStep product_target_mean overall_mean train2,
    targetStep product_target_mean overall_mean test2)

/-- preprocess_new_data viewed with its frame effects explicit: the pair
of the caller-visible state after the call (the manager fields and the
caller frame object, which line 246 of model_manager.py shields behind a
copy before any in-place operation) and the returned result. -/
def preprocess_run (st : ModelManager) (new_data_df : DataFrame) :
    (ModelManager × DataFrame) × Except PyErr DataFrame :=
  let df := DataFrame.mk new_data_df.cols new_data_df.rows
  ((st, new_data_df), preprocess_new_data st df)

/-- predict viewed with its frame effects explicit: the manager fields
and the caller frame after the call, together with the result. -/
def predict_run (st : ModelManager) (new_data_df : DataFrame) :
    (ModelManager × DataFrame) × Except PyErr (List ℚ) :=
  ((st, new_data_df), ModelManager.predict st new_data_df)

/-- An encoder fitted over the five designated columns in their
canonical order, as every encoder produced by train_and_save.py is
(ohe.fit(train_df[ohe_cols]) fits exactly these five features in this
order); the category lists are arbitrary. -/
def mkOhe (c1 c2 c3 c4 c5 : List Cell) : OneHotEnc :=
  ⟨[("PersonType", c1), ("ProductLine", c2), ("Name_territory", c3),
    ("CountryRegionCode", c4), ("Group", c5)]⟩

/-- A manager holding a full set of loaded preprocessing artifacts
fitted by the trainer, with an arbitrary model slot. -/
def mkMgr (b : Option Blob) (c1 c2 c3 c4 c5 : List Cell) (lam : ℚ)
    (tbl : List (String × ℚ)) (ov : ℚ) : ModelManager :=
  ⟨b, some (mkOhe c1 c2 c3 c4 c5), some lam, some tbl, some ov⟩

/-- The cell a validated record carries in one of the designated
categorical fields. -/
def fieldCell (r : PredictionInput) : String → Cell
  | "PersonType" => Cell.str r.PersonType
  | "ProductLine" => Cell.str r.ProductLine
  | "Name_territory" => Cell.str r.Name_territory
  | "CountryRegionCode" => Cell.str r.CountryRegionCode
  | "Group" => Cell.str r.Group
  | _ => Cell.na

/-- The row of a validated record after the date-extraction step. -/
def row1 (r : PredictionInput) : Row :=
  [("PersonType", Cell.str r.PersonType),
   ("OrderQty", Cell.int r.OrderQty),
   ("Name", Cell.str r.Name),
   ("ProductLine", Cell.str r.ProductLine),
   ("Name_territory", Cell.str r.Name_territory),
   ("CountryRegionCode", Cell.str r.CountryRegionCode),
   ("Group", Cell.str r.Group),
   ("Year", Cell.int r.OrderDate.1),
   ("Month", Cell.int r.OrderDate.2.1),
   ("Day", Cell.int r.OrderDate.2.2)]

/-- The row of a validated record after imputation and Box-Cox. -/
def row3 (r : PredictionInput) (lam : ℚ) : Row :=
  [("PersonType", Cell.str r.PersonType),
   ("Name", Cell.str r.Name),
   ("ProductLine", Cell.str r.ProductLine),
   ("Name_territory", Cell.str r.Name_territory),
   ("CountryRegionCode", Cell.str r.CountryRegionCode),
   ("Group", Cell.str r.Group),
   ("Year", Cell.int r.OrderDate.1),
   ("Month", Cell.int r.OrderDate.2.1),
   ("Day", Cell.int r.OrderDate.2.2),
   ("OrderQty_boxcox", specialBoxcox (r.OrderQty : ℚ) lam)]

/-- The row of a validated record after one-hot expansion. -/
def row4 (r : PredictionInput) (lam : ℚ) (e : OneHotEnc) : Row :=
  [("Name", Cell.str r.Name),
   ("Year", Cell.int r.OrderDate.1),
   ("Month", Cell.int r.OrderDate.2.1),
   ("Day", Cell.int r.OrderDate.2.2),
   ("OrderQty_boxcox", specialBoxcox (r.OrderQty : ℚ) lam)] ++
  List.flatten (List.map (fun fc => encodeBlock fc (row3 r lam)) e.features)

/-- The columns of a frame of validated records after date extraction. -/
def cols1 : List String :=
  ["PersonType", "OrderQty", "Name", "ProductLine", "Name_territory",
   "CountryRegionCode", "Group", "Year", "Month", "Day"]

/-- The columns after imputation and Box-Cox. -/
def cols3 : List String :=
  ["PersonType", "Name", "ProductLine", "Name_territory", "CountryRegionCode",
   "Group", "Year", "Month", "Day", "OrderQty_boxcox"]

/-- The output columns of the serve-time transform on full validated
records: the date components, the transformed quantity, exactly the
indicator columns of the fitted vocabulary, and the target-encoded
product column. -/
def servedCols (e : OneHotEnc) : List String :=
  ["Year", "Month", "Day", "OrderQty_boxcox"] ++ oheOutNames e ++ ["Name_target_encoded"]

/-- The output row of the serve-time transform on one full validated
record. -/
def servedRow (e : OneHotEnc) (lam : ℚ) (tbl : List (String × ℚ)) (ov : ℚ)
    (r : PredictionInput) : Row :=
  [("Year", Cell.int r.OrderDate.1),
   ("Month", Cell.int r.OrderDate.2.1),
   ("Day", Cell.int r.OrderDate.2.2),
   ("OrderQty_boxcox", specialBoxcox (r.OrderQty : ℚ) lam)] ++
  List.flatten (List.map (fun fc => encodeBlock fc (row3 r lam)) e.features) ++
  [("Name_target_encoded", Cell.rat ((alookup tbl r.Name).getD ov))]

/-- Sample artifacts for concrete evaluations: the vocabulary, exponent,
mean table and fallback of the worked example in the documentation. -/
def mgrW : ModelManager :=
  mkMgr (some (Blob.model (fun _ => 0)))
    [Cell.str "IN", Cell.str "SC"] [Cell.str "M", Cell.str "R"]
    [Cell.str "Southwest"] [Cell.str "US"] [Cell.str "North America"]
    (7/20) [("Road-250", 1500)] 900

/-- A record batch carrying one of the five designated categorical
fields (PersonType) while the other four are absent. -/
def dfPartial : DataFrame :=
  ⟨["PersonType", "OrderQty", "Name", "OrderDate"],
   [[("PersonType", Cell.str "SC"), ("OrderQty", Cell.int 5),
     ("Name", Cell.str "Road-250"), ("OrderDate", Cell.date 2013 7 1)]]⟩

/-- A fully populated validated record. -/
def rW : PredictionInput :=
  ⟨"SC", 5, "Road-250", "M", "Southwest", "US", "North America", (2013, 7, 1)⟩

/-- The same record with a zero quantity (rejected at the web boundary,
reachable at the transform). -/
def rW0 : PredictionInput :=
  ⟨"SC", 0, "Road-250", "M", "Southwest", "US", "North America", (2013, 7, 1)⟩

/-- The same record with a negative quantity. -/
def rWneg : PredictionInput :=
  ⟨"SC", -5, "Road-250", "M", "Southwest", "US", "North America", (2013, 7, 1)⟩

/-- A store holding only the model half of a pipeline. -/
def storeHalf : Store := [("p_model.joblib", Blob.model (fun _ => 0))]

/-- A tiny training partition for concrete evaluations of the trainer
(two rows, distinct positive quantities). -/
def trainW : DataFrame :=
  ⟨["PersonType", "OrderQty", "Name", "ProductLine", "Name_territory",
    "CountryRegionCode", "Group", "TotalDue"],
   [[("PersonType", Cell.str "SC"), ("OrderQty", Cell.int 1), ("Name", Cell.str "A"),
     ("ProductLine", Cell.str "M"), ("Name_territory", Cell.str "Southwest"),
     ("CountryRegionCode", Cell.str "US"), ("Group", Cell.str "North America"),
     ("TotalDue", Cell.rat 10)],
    [("PersonType", Cell.str "IN"), ("OrderQty", Cell.int 2), ("Name", Cell.str "B"),
     ("ProductLine", Cell.str "R"), ("Name_territory", Cell.str "Canada"),
     ("CountryRegionCode", Cell.str "CA"), ("Group", Cell.str "North America"),
     ("TotalDue", Cell.rat 20)]]⟩

/-- A tiny evaluation partition (one row, a product name unseen in
training). -/
def testW : DataFrame :=
  ⟨["PersonType", "OrderQty", "Name", "ProductLine", "Name_territory",
    "CountryRegionCode", "Group", "TotalDue"],
   [[("PersonType", Cell.str "SC"), ("OrderQty", Cell.int 3), ("Name", Cell.str "C"),
     ("ProductLine", Cell.str "M"), ("Name_territory", Cell.str "Southwest"),
     ("CountryRegionCode", Cell.str "US"), ("Group", Cell.str "North America"),
     ("TotalDue", Cell.rat 30)]]⟩

/-- A stand-in for the scipy maximum-likelihood exponent estimator in
concrete evaluations. -/
def mleW : List ℚ → ℚ := fun _ => 1/2

/-- The result triple of the trainer on the tiny partitions. -/
def coreResW : FittedParams × DataFrame × DataFrame :=
  (train_model_core mleW trainW testW).toOption.getD default

/-- A record whose customer type is outside the sample fitted
vocabulary. -/
def rWunseen : PredictionInput :=
  ⟨"XX", 5, "Road-250", "M", "Southwest", "US", "North America", (2013, 7, 1)⟩

/-- A record whose product name is absent from the sample mean table. -/
def rWunk : PredictionInput :=
  ⟨"SC", 5, "Mystery", "M", "Southwest", "US", "North America", (2013, 7, 1)⟩

/-- The boundary quantities of the documented domain: one. -/
def rWq1 : PredictionInput :=
  ⟨"SC", 1, "Road-250", "M", "Southwest", "US", "North America", (2013, 7, 1)⟩

/-- The boundary quantities of the documented domain: one thousand. -/
def rWq1000 : PredictionInput :=
  ⟨"SC", 1000, "Road-250", "M", "Southwest", "US", "North America", (2013, 7, 1)⟩

/-- Sample fitted category lists for witnesses. -/
def cW1 : List Cell := [Cell.str "IN", Cell.str "SC"]

/-- Sample fitted category lists for witnesses. -/
def cW2 : List Cell := [Cell.str "M", Cell.str "R"]

/-- Sample fitted category lists for witnesses. -/
def cW3 : List Cell := [Cell.str "Southwest"]

/-- Sample fitted category lists for witnesses. -/
def cW4 : List Cell := [Cell.str "US"]

/-- Sample fitted category lists for witnesses. -/
def cW5 : List Cell := [Cell.str "North America"]

/-- A sample model blob slot. -/
def bW : Option Blob := some (Blob.model (fun _ => 0))

/-- Indicator column names never collide with the reserved column names:
every one of the five designated feature prefixes differs from
Name_target_encoded and from Name within the prefix already. -/
lemma encKey_ne (f : String) (hf : f ∈ ohe_cols) (s : String) :
    (f ++ "_" ++ s) ≠ "Name_target_encoded" ∧ (f ++ "_" ++ s) ≠ "Name" := by
  fin_cases hf <;>
    refine ⟨?_, ?_⟩ <;>
    · intro h
      have hd := congrArg String.data h
      simp only [String.data_append] at hd
      simp at hd

/-- mapM over a mapped list, when every element maps successfully. -/
lemma mapM_ok_map {α β γ : Type} (f : α → Except PyErr β) (g : γ → α) (h : γ → β)
    (H : ∀ c, f (g c) = Except.ok (h c)) (l : List γ) :
    List.mapM f (List.map g l) = Except.ok (List.map h l) := by
  induction l with
  | nil => rfl
  | cons c t ih => rw [List.map_cons, List.mapM_cons, H, ih]; rfl

/-- Date extraction on a frame of validated records. -/
lemma dateStep_toDF (rs : List PredictionInput) :
    dateStep (toDF rs) = Except.ok ⟨cols1, List.map row1 rs⟩ := by
  have h := mapM_ok_map dateRow recordRow row1 (fun r => rfl) rs
  have hc : inputCols.contains "OrderDate" = true := rfl
  simp only [dateStep, toDF, hc, if_true]
  rw [h]
  rfl

/-- Imputation and Box-Cox on a frame of validated records. -/
lemma fill_box_stage (lam : ℚ) (rs : List PredictionInput) :
    boxcoxStep lam (fillStep ⟨cols1, List.map row1 rs⟩) =
      Except.ok ⟨cols3, List.map (fun r => row3 r lam) rs⟩ := by
  have hc : cols1.contains "ProductLine" = true := rfl
  simp only [fillStep, hc, if_true]
  have hc2 : cols1.contains "OrderQty" = true := rfl
  simp only [boxcoxStep, hc2, if_true]
  rw [List.map_map]
  have h := mapM_ok_map (bcRow lam)
    ((fun r => rset r "ProductLine" (fillCell (rget r "ProductLine"))) ∘ row1)
    (fun r => row3 r lam) (fun r => rfl) rs
  rw [h]
  rfl

/-- One-hot expansion on a frame of validated records: all five
designated columns are present and equal the fitted feature list, so the
step succeeds and appends exactly the fitted indicator columns. -/
lemma ohe_stage (lam : ℚ) (c1 c2 c3 c4 c5 : List Cell) (rs : List PredictionInput) :
    oheStep (mkOhe c1 c2 c3 c4 c5) ⟨cols3, List.map (fun r => row3 r lam) rs⟩ =
      Except.ok ⟨["Name", "Year", "Month", "Day", "OrderQty_boxcox"] ++ oheOutNames (mkOhe c1 c2 c3 c4 c5),
        List.map (fun r => row4 r lam (mkOhe c1 c2 c3 c4 c5)) rs⟩ := by
  have hav : List.filter (fun c => (DataFrame.mk cols3 (List.map (fun r => row3 r lam) rs)).cols.contains c) ohe_cols = ohe_cols := rfl
  simp only [oheStep, hav]
  rw [if_neg (by decide), if_pos (show ohe_cols = featureNames (mkOhe c1 c2 c3 c4 c5) from rfl)]
  rw [List.map_map]
  exact congrArg (fun z => Except.ok (DataFrame.mk (["Name", "Year", "Month", "Day", "OrderQty_boxcox"] ++ oheOutNames (mkOhe c1 c2 c3 c4 c5)) z)) (List.map_congr_left fun r hr => rfl)

/-- Every key in an indicator block is a designated prefix followed by a
category name, hence never one of the reserved column names. -/
lemma block_no_key {fc : String × List Cell} {r : Row}
    {a : String} {b : Cell} (h : (a, b) ∈ encodeBlock fc r) (hf : fc.1 ∈ ohe_cols) :
    ¬ a = "Name_target_encoded" ∧ ¬ a = "Name" := by
  simp only [encodeBlock, List.mem_map] at h
  obtain ⟨c, hc, hpc⟩ := h
  have ha : a = fc.1 ++ "_" ++ catName c := by
    simpa using congrArg Prod.fst hpc.symm
  subst ha
  exact encKey_ne fc.1 hf (catName c)

/-- Filtering the Name column away leaves an indicator block intact. -/
lemma block_filter_name (fc : String × List Cell) (hf : fc.1 ∈ ohe_cols) (r : Row) :
    (encodeBlock fc r).filter (fun p => ¬ (p.1 == "Name")) = encodeBlock fc r := by
  rw [List.filter_eq_self]
  intro p hp
  simpa using (block_no_key (a := p.1) (b := p.2) (by simpa using hp) hf).2

/-- No encoded row already carries a Name_target_encoded column, so the
target-encoding assignment appends rather than overwrites. -/
lemma row4_any_nte (r : PredictionInput) (lam : ℚ) (c1 c2 c3 c4 c5 : List Cell) :
    (row4 r lam (mkOhe c1 c2 c3 c4 c5)).any (fun p => p.1 == "Name_target_encoded") = false := by
  simp [row4, mkOhe, List.any_append]
  refine ⟨?_, ?_, ?_, ?_, ?_⟩ <;>
    exact fun a b h => (block_no_key h (by simp [ohe_cols])).1

/-- Every indicator column name is a designated prefix followed by a
category name. -/
lemma outNames_key {c1 c2 c3 c4 c5 : List Cell} {a : String}
    (h : a ∈ oheOutNames (mkOhe c1 c2 c3 c4 c5)) :
    ∃ f, f ∈ ohe_cols ∧ ∃ c : Cell, a = f ++ "_" ++ catName c := by
  simp only [oheOutNames, mkOhe, List.map_cons, List.map_nil, List.flatten_cons,
    List.flatten_nil, List.mem_append, List.mem_map, List.append_nil] at h
  rcases h with (⟨c, hc, rfl⟩ | ⟨c, hc, rfl⟩ | ⟨c, hc, rfl⟩ | ⟨c, hc, rfl⟩ | ⟨c, hc, rfl⟩) <;>
    exact ⟨_, by simp [ohe_cols], c, rfl⟩

/-- The encoded column list does not already contain
Name_target_encoded. -/
lemma cols4_nte (c1 c2 c3 c4 c5 : List Cell) :
    (("Name" :: "Year" :: "Month" :: "Day" :: "OrderQty_boxcox" :: []) ++
      oheOutNames (mkOhe c1 c2 c3 c4 c5)).contains "Name_target_encoded" = false := by
  have h : "Name_target_encoded" ∉ ("Name" :: "Year" :: "Month" :: "Day" :: "OrderQty_boxcox" :: []) ++
      oheOutNames (mkOhe c1 c2 c3 c4 c5) := by
    intro hm
    rcases List.mem_append.mp hm with h1 | h2
    · simp at h1
    · obtain ⟨f, hf, c, hc⟩ := outNames_key h2
      exact (encKey_ne f hf (catName c)).1 hc.symm
  simpa using h

/-- Dropping the Name column leaves the indicator column names intact. -/
lemma outNames_filter_name (c1 c2 c3 c4 c5 : List Cell) :
    (oheOutNames (mkOhe c1 c2 c3 c4 c5)).filter (fun c => ¬ (c == "Name")) =
      oheOutNames (mkOhe c1 c2 c3 c4 c5) := by
  rw [List.filter_eq_self]
  intro a ha
  obtain ⟨f, hf, c, rfl⟩ := outNames_key ha
  simpa using (encKey_ne f hf (catName c)).2

/-- Dropping the Name column leaves the encoded cell blocks intact. -/
lemma flatten_filter_name (rr : Row) (c1 c2 c3 c4 c5 : List Cell) :
    (List.flatten (List.map (fun fc => encodeBlock fc rr) (mkOhe c1 c2 c3 c4 c5).features)).filter
        (fun p => ¬ (p.1 == "Name")) =
      List.flatten (List.map (fun fc => encodeBlock fc rr) (mkOhe c1 c2 c3 c4 c5).features) := by
  simp only [mkOhe, List.map_cons, List.map_nil, List.flatten_cons, List.flatten_nil,
    List.filter_append, List.append_nil]
  rw [block_filter_name _ (by simp [ohe_cols]) rr, block_filter_name _ (by simp [ohe_cols]) rr,
    block_filter_name _ (by simp [ohe_cols]) rr, block_filter_name _ (by simp [ohe_cols]) rr,
    block_filter_name _ (by simp [ohe_cols]) rr]

/-- Target encoding on one encoded row of a validated record. -/
lemma target_row (r : PredictionInput) (lam : ℚ) (tbl : List (String × ℚ)) (ov : ℚ)
    (c1 c2 c3 c4 c5 : List Cell) :
    rdrop (rset (row4 r lam (mkOhe c1 c2 c3 c4 c5)) "Name_target_encoded"
        (targetCell tbl ov (rget (row4 r lam (mkOhe c1 c2 c3 c4 c5)) "Name"))) "Name" =
      servedRow (mkOhe c1 c2 c3 c4 c5) lam tbl ov r := by
  have hget : rget (row4 r lam (mkOhe c1 c2 c3 c4 c5)) "Name" = Cell.str r.Name := rfl
  rw [hget]
  rw [rset, if_neg (by rw [row4_any_nte r lam c1 c2 c3 c4 c5]; exact Bool.false_ne_true)]
  show rdrop ((row4 r lam (mkOhe c1 c2 c3 c4 c5)) ++
    [("Name_target_encoded", targetCell tbl ov (Cell.str r.Name))]) "Name" = _
  rw [rdrop, row4, List.append_assoc, List.filter_append]
  rw [List.filter_append]
  rw [flatten_filter_name]
  rfl

/-- Target encoding on a frame of encoded validated records. -/
lemma target_stage (lam : ℚ) (tbl : List (String × ℚ)) (ov : ℚ)
    (c1 c2 c3 c4 c5 : List Cell) (rs : List PredictionInput) :
    targetStep tbl ov ⟨["Name", "Year", "Month", "Day", "OrderQty_boxcox"] ++
        oheOutNames (mkOhe c1 c2 c3 c4 c5),
        List.map (fun r => row4 r lam (mkOhe c1 c2 c3 c4 c5)) rs⟩ =
      ⟨servedCols (mkOhe c1 c2 c3 c4 c5),
        List.map (servedRow (mkOhe c1 c2 c3 c4 c5) lam tbl ov) rs⟩ := by
  have hc : (("Name" :: "Year" :: "Month" :: "Day" :: "OrderQty_boxcox" :: []) ++
      oheOutNames (mkOhe c1 c2 c3 c4 c5)).contains "Name" = true := rfl
  simp only [targetStep, hc, if_true]
  congr 1
  · rw [colset, if_neg (by rw [cols4_nte]; exact Bool.false_ne_true)]
    rw [coldrop, List.append_assoc, List.filter_append, List.filter_append]
    rw [outNames_filter_name]
    rfl
  · rw [List.map_map]
    exact List.map_congr_left fun r hr => target_row r lam tbl ov c1 c2 c3 c4 c5

/-- The serve-time transform on a frame of full validated records with
artifacts fitted by the trainer: it always succeeds, producing exactly
the served columns and one served row per record, in order. -/
lemma preprocess_toDF (c1 c2 c3 c4 c5 : List Cell) (lam : ℚ) (tbl : List (String × ℚ))
    (ov : ℚ) (rs : List PredictionInput) :
    preprocessWith (mkOhe c1 c2 c3 c4 c5) lam tbl ov (toDF rs) =
      Except.ok ⟨servedCols (mkOhe c1 c2 c3 c4 c5),
        List.map (servedRow (mkOhe c1 c2 c3 c4 c5) lam tbl ov) rs⟩ := by
  unfold preprocessWith
  rw [dateStep_toDF]
  show (do
    let d3 ← boxcoxStep lam (fillStep ⟨cols1, List.map row1 rs⟩)
    let d4 ← oheStep (mkOhe c1 c2 c3 c4 c5) d3
    Except.ok (targetStep tbl ov d4) : Except PyErr DataFrame) = _
  rw [fill_box_stage]
  show (do
    let d4 ← oheStep (mkOhe c1 c2 c3 c4 c5) ⟨cols3, List.map (fun r => row3 r lam) rs⟩
    Except.ok (targetStep tbl ov d4) : Except PyErr DataFrame) = _
  rw [ohe_stage]
  show Except.ok (targetStep tbl ov ⟨["Name", "Year", "Month", "Day", "OrderQty_boxcox"] ++
      oheOutNames (mkOhe c1 c2 c3 c4 c5),
      List.map (fun r => row4 r lam (mkOhe c1 c2 c3 c4 c5)) rs⟩) = _
  rw [target_stage]

/-- preprocess_new_data on a manager with a full artifact set reduces to
the transform body. -/
lemma preprocess_new_data_mkMgr (b : Option Blob) (c1 c2 c3 c4 c5 : List Cell)
    (lam : ℚ) (tbl : List (String × ℚ)) (ov : ℚ) (df : DataFrame) :
    preprocess_new_data (mkMgr b c1 c2 c3 c4 c5 lam tbl ov) df =
      preprocessWith (mkOhe c1 c2 c3 c4 c5) lam tbl ov df := rfl

/-- The target-encoded cell of a served row is the table lookup with
fallback. -/
lemma rget_servedRow_nte (c1 c2 c3 c4 c5 : List Cell) (lam : ℚ) (tbl : List (String × ℚ))
    (ov : ℚ) (r : PredictionInput) :
    rget (servedRow (mkOhe c1 c2 c3 c4 c5) lam tbl ov r) "Name_target_encoded" =
      Cell.rat ((alookup tbl r.Name).getD ov) := by
  rw [servedRow, rget, List.find?_append, List.find?_append]
  have h1 : List.find? (fun p => p.1 == "Name_target_encoded")
      [("Year", Cell.int r.OrderDate.1), ("Month", Cell.int r.OrderDate.2.1),
       ("Day", Cell.int r.OrderDate.2.2), ("OrderQty_boxcox", specialBoxcox (r.OrderQty : ℚ) lam)] = none := rfl
  have h2 : List.find? (fun p => p.1 == "Name_target_encoded")
      (List.flatten (List.map (fun fc => encodeBlock fc (row3 r lam)) (mkOhe c1 c2 c3 c4 c5).features)) = none := by
    rw [List.find?_eq_none]
    intro x hx
    simp only [mkOhe, List.map_cons, List.map_nil, List.flatten_cons, List.flatten_nil,
      List.mem_append, List.append_nil] at hx
    rcases hx with hx | hx | hx | hx | hx <;>
      simpa using (block_no_key (a := x.1) (b := x.2) (by simpa using hx) (by simp [ohe_cols])).1
  rw [h1, h2]
  rfl

/-- The raw Name column is gone from the served column list. -/
lemma name_not_served (c1 c2 c3 c4 c5 : List Cell) :
    (servedCols (mkOhe c1 c2 c3 c4 c5)).contains "Name" = false := by
  have h : "Name" ∉ servedCols (mkOhe c1 c2 c3 c4 c5) := by
    intro hm
    simp only [servedCols, List.mem_append] at hm
    rcases hm with (hm | hm) | hm
    · simp at hm
    · obtain ⟨f, hf, c, hc⟩ := outNames_key hm
      exact (encKey_ne f hf (catName c)).2 hc.symm
    · simp at hm
  simpa using h

/-- Zipping a list with its own image. -/
lemma zip_self_map {α β : Type} (g : α → β) (l : List α) :
    l.zip (l.map g) = l.map (fun a => (a, g a)) := by
  induction l with
  | nil => rfl
  | cons a t ih => simp [ih]

/-- Enumeration from an index commutes with mapping. -/
lemma enumFrom_map {α β : Type} (g : α → β) (n : Nat) (l : List α) :
    (l.map g).enumFrom n = (l.enumFrom n).map (Prod.map id g) := by
  induction l generalizing n with
  | nil => rfl
  | cons a t ih => simp [List.enumFrom, ih]

/-- Enumeration commutes with mapping. -/
lemma enum_map {α β : Type} (g : α → β) (l : List α) :
    (l.map g).enum = l.enum.map (Prod.map id g) :=
  enumFrom_map g 0 l

/-- predict on a manager loaded with a regressor and trainer artifacts
applies the regressor to every served row, in order. -/
lemma predict_mkMgr (f : Row → ℚ) (c1 c2 c3 c4 c5 : List Cell) (lam : ℚ)
    (tbl : List (String × ℚ)) (ov : ℚ) (rs : List PredictionInput) :
    ModelManager.predict (mkMgr (some (Blob.model f)) c1 c2 c3 c4 c5 lam tbl ov) (toDF rs) =
      Except.ok (List.map (fun r => f (servedRow (mkOhe c1 c2 c3 c4 c5) lam tbl ov r)) rs) := by
  show (do
    let processed ← preprocess_new_data (mkMgr (some (Blob.model f)) c1 c2 c3 c4 c5 lam tbl ov) (toDF rs)
    Except.ok (List.map f processed.rows) : Except PyErr (List ℚ)) = _
  rw [preprocess_new_data_mkMgr, preprocess_toDF]
  show Except.ok (List.map f (List.map (servedRow (mkOhe c1 c2 c3 c4 c5) lam tbl ov) rs)) = _
  rw [List.map_map]
  rfl

/-- Inversion of a successful Except bind. -/
lemma bind_ok_inv {α β : Type} {m : Except PyErr α} {f : α → Except PyErr β} {b : β}
    (h : (m >>= f) = Except.ok b) : ∃ a, m = Except.ok a ∧ f a = Except.ok b := by
  cases m with
  | error e => simp [Bind.bind, Except.bind] at h
  | ok a => exact ⟨a, rfl, by simpa [Bind.bind, Except.bind] using h⟩

/-- C1 counterexample: a record batch carrying PersonType but missing the
other four designated categorical fields makes preprocess_new_data raise
the fitted encoder's feature mismatch error instead of succeeding with
the absent fields skipped, refuting the claim that any batch with some
but not all designated fields present is transformed without error. -/
theorem C1_counterexample :
    preprocess_new_data mgrW dfPartial = Except.error PyErr.featureMismatch := rfl

/-- C1 (amended): only a batch with ALL five designated categorical
fields absent is tolerated, the one-hot step being skipped entirely with
no indicator columns and the present fields transformed normally; a
batch in which some but not all of the five are present makes the
one-hot stage of preprocess_new_data raise a feature-mismatch error (the
fitted encoder validates its input columns), rather than skipping the
absent fields. -/
theorem C1_theorem :
    (∀ (b : Option Blob) (c1 c2 c3 c4 c5 : List Cell) (lam : ℚ)
       (tbl : List (String × ℚ)) (ov : ℚ) (q : Int) (nm : String) (y mo dy : Int),
      preprocess_new_data (mkMgr b c1 c2 c3 c4 c5 lam tbl ov)
        ⟨["OrderQty", "Name", "OrderDate"],
         [[("OrderQty", Cell.int q), ("Name", Cell.str nm), ("OrderDate", Cell.date y mo dy)]]⟩ =
      Except.ok ⟨["Year", "Month", "Day", "OrderQty_boxcox", "Name_target_encoded"],
        [[("Year", Cell.int y), ("Month", Cell.int mo), ("Day", Cell.int dy),
          ("OrderQty_boxcox", specialBoxcox (q : ℚ) lam),
          ("Name_target_encoded", Cell.rat ((alookup tbl nm).getD ov))]]⟩) ∧
    (∀ (e : OneHotEnc) (df : DataFrame),
      List.filter (fun c => df.cols.contains c) ohe_cols ≠ [] →
      List.filter (fun c => df.cols.contains c) ohe_cols ≠ featureNames e →
      oheStep e df = Except.error PyErr.featureMismatch) := by
  constructor
  · intro b c1 c2 c3 c4 c5 lam tbl ov q nm y mo dy
    rfl
  · intro e df h1 h2
    rw [oheStep]
    rw [if_neg (by simpa [List.isEmpty_iff] using h1), if_neg h2]

/-- C1 witness: the amended claim evaluated concretely, for the
all-absent batch and for the PersonType-only batch. -/
theorem C1_witness :
    (preprocess_new_data (mkMgr bW cW1 cW2 cW3 cW4 cW5 (7/20) [("Road-250", 1500)] 900)
        ⟨["OrderQty", "Name", "OrderDate"],
         [[("OrderQty", Cell.int 5), ("Name", Cell.str "Road-250"), ("OrderDate", Cell.date 2013 7 1)]]⟩ =
      Except.ok ⟨["Year", "Month", "Day", "OrderQty_boxcox", "Name_target_encoded"],
        [[("Year", Cell.int 2013), ("Month", Cell.int 7), ("Day", Cell.int 1),
          ("OrderQty_boxcox", specialBoxcox ((5 : Int) : ℚ) (7/20)),
          ("Name_target_encoded", Cell.rat ((alookup [("Road-250", 1500)] "Road-250").getD 900))]]⟩) ∧
    oheStep (mkOhe cW1 cW2 cW3 cW4 cW5) dfPartial = Except.error PyErr.featureMismatch :=
  ⟨C1_theorem.1 bW cW1 cW2 cW3 cW4 cW5 (7/20) [("Road-250", 1500)] 900 5 "Road-250" 2013 7 1,
   C1_theorem.2 (mkOhe cW1 cW2 cW3 cW4 cW5) dfPartial (by decide) (by decide)⟩

/-- C2: with artifacts fitted by the trainer, a record whose value in a
designated categorical field lies outside that field's fitted vocabulary
is transformed without error, the output columns are exactly the served
columns (no new column is added), and the indicator block of that field
is all zero. -/
theorem C2_theorem (b : Option Blob) (c1 c2 c3 c4 c5 : List Cell) (lam : ℚ)
    (tbl : List (String × ℚ)) (ov : ℚ) (r : PredictionInput) (f : String) (cats : List Cell)
    (hf : (f, cats) ∈ (mkOhe c1 c2 c3 c4 c5).features)
    (hun : fieldCell r f ∉ cats) :
    preprocess_new_data (mkMgr b c1 c2 c3 c4 c5 lam tbl ov) (toDF [r]) =
      Except.ok ⟨servedCols (mkOhe c1 c2 c3 c4 c5),
        [servedRow (mkOhe c1 c2 c3 c4 c5) lam tbl ov r]⟩ ∧
    (∃ pre post, servedRow (mkOhe c1 c2 c3 c4 c5) lam tbl ov r =
      pre ++ List.map (fun c => (f ++ "_" ++ catName c, Cell.rat 0)) cats ++ post) := by
  refine ⟨by rw [preprocess_new_data_mkMgr, preprocess_toDF]; rfl, ?_⟩
  simp only [mkOhe, List.mem_cons, List.not_mem_nil, or_false, Prod.mk.injEq] at hf
  rcases hf with ⟨rfl, rfl⟩ | ⟨rfl, rfl⟩ | ⟨rfl, rfl⟩ | ⟨rfl, rfl⟩ | ⟨rfl, rfl⟩
  · refine ⟨[("Year", Cell.int r.OrderDate.1), ("Month", Cell.int r.OrderDate.2.1),
      ("Day", Cell.int r.OrderDate.2.2), ("OrderQty_boxcox", specialBoxcox (r.OrderQty : ℚ) lam)],
      encodeBlock ("ProductLine", c2) (row3 r lam) ++ encodeBlock ("Name_territory", c3) (row3 r lam) ++
      encodeBlock ("CountryRegionCode", c4) (row3 r lam) ++ encodeBlock ("Group", c5) (row3 r lam) ++
      [("Name_target_encoded", Cell.rat ((alookup tbl r.Name).getD ov))], ?_⟩
    have hb : encodeBlock ("PersonType", cats) (row3 r lam) =
        List.map (fun c => ("PersonType" ++ "_" ++ catName c, Cell.rat 0)) cats := by
      unfold encodeBlock
      exact List.map_congr_left fun c hc => by
        rw [if_neg (show ¬ rget (row3 r lam) "PersonType" = c from fun he => hun
          (show rget (row3 r lam) "PersonType" ∈ cats from he.symm ▸ hc))]
    rw [← hb]
    simp [servedRow, mkOhe, List.append_assoc]
  · refine ⟨[("Year", Cell.int r.OrderDate.1), ("Month", Cell.int r.OrderDate.2.1),
      ("Day", Cell.int r.OrderDate.2.2), ("OrderQty_boxcox", specialBoxcox (r.OrderQty : ℚ) lam)] ++
      encodeBlock ("PersonType", c1) (row3 r lam),
      encodeBlock ("Name_territory", c3) (row3 r lam) ++
      encodeBlock ("CountryRegionCode", c4) (row3 r lam) ++ encodeBlock ("Group", c5) (row3 r lam) ++
      [("Name_target_encoded", Cell.rat ((alookup tbl r.Name).getD ov))], ?_⟩
    have hb : encodeBlock ("ProductLine", cats) (row3 r lam) =
        List.map (fun c => ("ProductLine" ++ "_" ++ catName c, Cell.rat 0)) cats := by
      unfold encodeBlock
      exact List.map_congr_left fun c hc => by
        rw [if_neg (show ¬ rget (row3 r lam) "ProductLine" = c from fun he => hun
          (show rget (row3 r lam) "ProductLine" ∈ cats from he.symm ▸ hc))]
    rw [← hb]
    simp [servedRow, mkOhe, List.append_assoc]
  · refine ⟨[("Year", Cell.int r.OrderDate.1), ("Month", Cell.int r.OrderDate.2.1),
      ("Day", Cell.int r.OrderDate.2.2), ("OrderQty_boxcox", specialBoxcox (r.OrderQty : ℚ) lam)] ++
      encodeBlock ("PersonType", c1) (row3 r lam) ++ encodeBlock ("ProductLine", c2) (row3 r lam),
      encodeBlock ("CountryRegionCode", c4) (row3 r lam) ++ encodeBlock ("Group", c5) (row3 r lam) ++
      [("Name_target_encoded", Cell.rat ((alookup tbl r.Name).getD ov))], ?_⟩
    have hb : encodeBlock ("Name_territory", cats) (row3 r lam) =
        List.map (fun c => ("Name_territory" ++ "_" ++ catName c, Cell.rat 0)) cats := by
      unfold encodeBlock
      exact List.map_congr_left fun c hc => by
        rw [if_neg (show ¬ rget (row3 r lam) "Name_territory" = c from fun he => hun
          (show rget (row3 r lam) "Name_territory" ∈ cats from he.symm ▸ hc))]
    rw [← hb]
    simp [servedRow, mkOhe, List.append_assoc]
  · refine ⟨[("Year", Cell.int r.OrderDate.1), ("Month", Cell.int r.OrderDate.2.1),
      ("Day", Cell.int r.OrderDate.2.2), ("OrderQty_boxcox", specialBoxcox (r.OrderQty : ℚ) lam)] ++
      encodeBlock ("PersonType", c1) (row3 r lam) ++ encodeBlock ("ProductLine", c2) (row3 r lam) ++
      encodeBlock ("Name_territory", c3) (row3 r lam),
      encodeBlock ("Group", c5) (row3 r lam) ++
      [("Name_target_encoded", Cell.rat ((alookup tbl r.Name).getD ov))], ?_⟩
    have hb : encodeBlock ("CountryRegionCode", cats) (row3 r lam) =
        List.map (fun c => ("CountryRegionCode" ++ "_" ++ catName c, Cell.rat 0)) cats := by
      unfold encodeBlock
      exact List.map_congr_left fun c hc => by
        rw [if_neg (show ¬ rget (row3 r lam) "CountryRegionCode" = c from fun he => hun
          (show rget (row3 r lam) "CountryRegionCode" ∈ cats from he.symm ▸ hc))]
    rw [← hb]
    simp [servedRow, mkOhe, List.append_assoc]
  · refine ⟨[("Year", Cell.int r.OrderDate.1), ("Month", Cell.int r.OrderDate.2.1),
      ("Day", Cell.int r.OrderDate.2.2), ("OrderQty_boxcox", specialBoxcox (r.OrderQty : ℚ) lam)] ++
      encodeBlock ("PersonType", c1) (row3 r lam) ++ encodeBlock ("ProductLine", c2) (row3 r lam) ++
      encodeBlock ("Name_territory", c3) (row3 r lam) ++ encodeBlock ("CountryRegionCode", c4) (row3 r lam),
      [("Name_target_encoded", Cell.rat ((alookup tbl r.Name).getD ov))], ?_⟩
    have hb : encodeBlock ("Group", cats) (row3 r lam) =
        List.map (fun c => ("Group" ++ "_" ++ catName c, Cell.rat 0)) cats := by
      unfold encodeBlock
      exact List.map_congr_left fun c hc => by
        rw [if_neg (show ¬ rget (row3 r lam) "Group" = c from fun he => hun
          (show rget (row3 r lam) "Group" ∈ cats from he.symm ▸ hc))]
    rw [← hb]
    simp [servedRow, mkOhe, List.append_assoc]

/-- C2 witness: a customer type outside the fitted vocabulary is
transformed without error and its PersonType indicator block is all
zero. -/
theorem C2_witness :
    preprocess_new_data (mkMgr bW cW1 cW2 cW3 cW4 cW5 (7/20) [("Road-250", 1500)] 900) (toDF [rWunseen]) =
      Except.ok ⟨servedCols (mkOhe cW1 cW2 cW3 cW4 cW5),
        [servedRow (mkOhe cW1 cW2 cW3 cW4 cW5) (7/20) [("Road-250", 1500)] 900 rWunseen]⟩ ∧
    (∃ pre post, servedRow (mkOhe cW1 cW2 cW3 cW4 cW5) (7/20) [("Road-250", 1500)] 900 rWunseen =
      pre ++ List.map (fun c => ("PersonType" ++ "_" ++ catName c, Cell.rat 0)) cW1 ++ post) :=
  C2_theorem bW cW1 cW2 cW3 cW4 cW5 (7/20) [("Road-250", 1500)] 900 rWunseen
    "PersonType" cW1 (by decide) (by decide)

/-- C3: with artifacts fitted by the trainer, every record is transformed
without error into the served columns; the Name field is replaced by the
single numeric column Name_target_encoded whose value is the fitted
per-product mean when the name is a key of the table and exactly the
overall-mean fallback otherwise, and the raw Name column is dropped from
the output. -/
theorem C3_theorem (b : Option Blob) (c1 c2 c3 c4 c5 : List Cell) (lam : ℚ)
    (tbl : List (String × ℚ)) (ov : ℚ) (r : PredictionInput) :
    preprocess_new_data (mkMgr b c1 c2 c3 c4 c5 lam tbl ov) (toDF [r]) =
      Except.ok ⟨servedCols (mkOhe c1 c2 c3 c4 c5),
        [servedRow (mkOhe c1 c2 c3 c4 c5) lam tbl ov r]⟩ ∧
    rget (servedRow (mkOhe c1 c2 c3 c4 c5) lam tbl ov r) "Name_target_encoded" =
      Cell.rat ((alookup tbl r.Name).getD ov) ∧
    (alookup tbl r.Name = none →
      rget (servedRow (mkOhe c1 c2 c3 c4 c5) lam tbl ov r) "Name_target_encoded" = Cell.rat ov) ∧
    (∀ v, alookup tbl r.Name = some v →
      rget (servedRow (mkOhe c1 c2 c3 c4 c5) lam tbl ov r) "Name_target_encoded" = Cell.rat v) ∧
    (servedCols (mkOhe c1 c2 c3 c4 c5)).contains "Name" = false := by
  refine ⟨?_, rget_servedRow_nte c1 c2 c3 c4 c5 lam tbl ov r, ?_, ?_,
    name_not_served c1 c2 c3 c4 c5⟩
  · rw [preprocess_new_data_mkMgr, preprocess_toDF]
    rfl
  · intro h
    rw [rget_servedRow_nte, h]
    rfl
  · intro v h
    rw [rget_servedRow_nte, h]
    rfl

/-- C3 witness: a known product name receives its fitted mean, an
unknown one exactly the overall-mean fallback. -/
theorem C3_witness :
    rget (servedRow (mkOhe cW1 cW2 cW3 cW4 cW5) (7/20) [("Road-250", 1500)] 900 rW)
        "Name_target_encoded" = Cell.rat 1500 ∧
    rget (servedRow (mkOhe cW1 cW2 cW3 cW4 cW5) (7/20) [("Road-250", 1500)] 900 rWunk)
        "Name_target_encoded" = Cell.rat 900 :=
  ⟨(C3_theorem bW cW1 cW2 cW3 cW4 cW5 (7/20) [("Road-250", 1500)] 900 rW).2.2.2.1 1500 (by decide),
   (C3_theorem bW cW1 cW2 cW3 cW4 cW5 (7/20) [("Road-250", 1500)] 900 rWunk).2.2.1 (by decide)⟩

/-- C4 counterexample: a batch with a zero quantity and a batch with a
negative quantity are transformed WITHOUT any error (the frozen-exponent
Box-Cox call performs no domain validation and silently produces a
non-finite value for negative input), refuting the claim that
preprocess_new_data raises a domain error for quantities of zero or
less. -/
theorem C4_counterexample :
    (preprocess_new_data mgrW (toDF [rW0])).isOk = true ∧
    (preprocess_new_data mgrW (toDF [rWneg])).isOk = true := ⟨rfl, rfl⟩

/-- C4 (amended): the Box-Cox step of preprocess_new_data never raises
for integer quantities: it applies the frozen fitted exponent without
re-estimating it, every batch is transformed successfully, positive
quantities (1 and 1000 included) receive the exact Box-Cox value at the
frozen exponent, and negative quantities silently receive a non-finite
value instead of an error. -/
theorem C4_theorem (b : Option Blob) (c1 c2 c3 c4 c5 : List Cell) (lam : ℚ)
    (tbl : List (String × ℚ)) (ov : ℚ) (r : PredictionInput) :
    preprocess_new_data (mkMgr b c1 c2 c3 c4 c5 lam tbl ov) (toDF [r]) =
      Except.ok ⟨servedCols (mkOhe c1 c2 c3 c4 c5),
        [servedRow (mkOhe c1 c2 c3 c4 c5) lam tbl ov r]⟩ ∧
    rget (servedRow (mkOhe c1 c2 c3 c4 c5) lam tbl ov r) "OrderQty_boxcox" =
      specialBoxcox (r.OrderQty : ℚ) lam ∧
    (0 < r.OrderQty → specialBoxcox (r.OrderQty : ℚ) lam = Cell.bc (r.OrderQty : ℚ) lam) ∧
    (r.OrderQty < 0 → specialBoxcox (r.OrderQty : ℚ) lam = Cell.na) := by
  refine ⟨?_, rfl, ?_, ?_⟩
  · rw [preprocess_new_data_mkMgr, preprocess_toDF]
    rfl
  · intro h
    rw [specialBoxcox, if_pos (Or.inl (by exact_mod_cast h))]
  · intro h
    rw [specialBoxcox, if_neg]
    rintro (h1 | ⟨h2, _⟩)
    · have hq : (0 : ℚ) < ((r.OrderQty : ℤ) : ℚ) := h1
      exact absurd (by exact_mod_cast hq) (not_lt.mpr (le_of_lt h))
    · have h0 : (r.OrderQty : ℤ) = 0 := by exact_mod_cast h2
      omega

/-- C4 witness: quantities 1 and 1000 succeed with the frozen exponent
applied, a negative quantity silently becomes the non-finite marker. -/
theorem C4_witness :
    preprocess_new_data (mkMgr bW cW1 cW2 cW3 cW4 cW5 (7/20) [("Road-250", 1500)] 900) (toDF [rWq1]) =
      Except.ok ⟨servedCols (mkOhe cW1 cW2 cW3 cW4 cW5),
        [servedRow (mkOhe cW1 cW2 cW3 cW4 cW5) (7/20) [("Road-250", 1500)] 900 rWq1]⟩ ∧
    specialBoxcox ((1 : Int) : ℚ) (7/20) = Cell.bc ((1 : Int) : ℚ) (7/20) ∧
    specialBoxcox ((1000 : Int) : ℚ) (7/20) = Cell.bc ((1000 : Int) : ℚ) (7/20) ∧
    specialBoxcox ((-5 : Int) : ℚ) (7/20) = Cell.na :=
  ⟨(C4_theorem bW cW1 cW2 cW3 cW4 cW5 (7/20) [("Road-250", 1500)] 900 rWq1).1,
   (C4_theorem bW cW1 cW2 cW3 cW4 cW5 (7/20) [("Road-250", 1500)] 900 rWq1).2.2.1 (by decide),
   (C4_theorem bW cW1 cW2 cW3 cW4 cW5 (7/20) [("Road-250", 1500)] 900 rWq1000).2.2.1 (by decide),
   (C4_theorem bW cW1 cW2 cW3 cW4 cW5 (7/20) [("Road-250", 1500)] 900 rWneg).2.2.2 (by decide)⟩

/-- C5: a prediction request issued while the pipeline is not loaded
(no manager, or a manager whose model is None) never produces a
prediction: the transform and predict refuse to run with a not-loaded
ValueError, and the endpoint raises an HTTP error; but because the
catch-all except clause of the endpoint re-wraps the 503 HTTPException
it raised, the error reaches the client as status 400 (a client-error
status) whose detail wraps the 503 message, not as the 503
service-unavailable status the handler intended. -/
theorem C5_theorem (mgrOpt : Option ModelManager) (inp : PredictionInput)
    (h : mgrOpt = none ∨ ∃ mgr, mgrOpt = some mgr ∧ mgr.model = none) :
    predict_revenue mgrOpt inp =
      Resp.httpError 400 "Prediction failed: 503: Model not loaded. Please check server logs." ∧
    (∀ (st : ModelManager) (df : DataFrame), st.model = none →
      ModelManager.predict st df = Except.error PyErr.notLoaded) ∧
    (∀ (st : ModelManager) (df : DataFrame), st.ohe = none →
      preprocess_new_data st df = Except.error PyErr.notLoaded) := by
  refine ⟨?_, ?_, ?_⟩
  · rcases h with rfl | ⟨mgr, rfl, hm⟩
    · rfl
    · simp only [predict_revenue, predictRevenueTry, hm]
      rfl
  · intro st df hm
    simp only [ModelManager.predict, hm]
  · intro st df hohe
    simp only [preprocess_new_data, hohe]

/-- C5 witness: the not-ready path evaluated with no manager present. -/
theorem C5_witness :
    predict_revenue none rW =
      Resp.httpError 400 "Prediction failed: 503: Model not loaded. Please check server logs." ∧
    (∀ (st : ModelManager) (df : DataFrame), st.model = none →
      ModelManager.predict st df = Except.error PyErr.notLoaded) ∧
    (∀ (st : ModelManager) (df : DataFrame), st.ohe = none →
      preprocess_new_data st df = Except.error PyErr.notLoaded) :=
  C5_theorem none rW (Or.inl rfl)

/-- C6 counterexample: loading a pipeline whose preprocessing blob is
absent fails with the file-not-found error, yet the manager retains the
already-loaded model half, so the manager state is NOT unchanged on
error, refuting the no-partially-loaded-state part of the claim. -/
theorem C6_counterexample :
    (load_complete_pipeline storeHalf ModelManager.empty "p").2 =
      Except.error (PyErr.fileNotFound "p_preprocessing.joblib") ∧
    (load_complete_pipeline storeHalf ModelManager.empty "p").1.model.isSome = true ∧
    ModelManager.empty.model.isSome = false := ⟨rfl, rfl, rfl⟩

/-- C6 (amended): load_complete_pipeline either loads both halves
together (model and all four preprocessing components installed, both
returned), or the caller observes a failure naming exactly the missing
file or the corrupt half; however the operation is not atomic in state:
when the model half loads and the preprocessing half fails, the manager
keeps the loaded model. -/
theorem C6_theorem (store : Store) (st : ModelManager) (name : String) :
    (store.read (name ++ "_model.joblib") = none →
      load_complete_pipeline store st name =
        (st, Except.error (PyErr.fileNotFound (name ++ "_model.joblib")))) ∧
    (∀ b, store.read (name ++ "_model.joblib") = some b →
      store.read (name ++ "_preprocessing.joblib") = none →
      load_complete_pipeline store st name =
        ({ st with model := some b },
         Except.error (PyErr.fileNotFound (name ++ "_preprocessing.joblib")))) ∧
    (∀ b e lam tbl ov, store.read (name ++ "_model.joblib") = some b →
      store.read (name ++ "_preprocessing.joblib") = some (Blob.preproc e lam tbl ov) →
      load_complete_pipeline store st name =
        ({ st with model := some b, ohe := some e, fitted_lambda := some lam,
                   product_target_mean := some tbl, overall_mean := some ov },
         Except.ok (b, (e, lam, tbl, ov)))) ∧
    (∀ b pb, store.read (name ++ "_model.joblib") = some b →
      store.read (name ++ "_preprocessing.joblib") = some pb →
      (∀ e lam tbl ov, pb ≠ Blob.preproc e lam tbl ov) →
      load_complete_pipeline store st name =
        ({ st with model := some b }, Except.error (PyErr.keyErr "ohe"))) := by
  refine ⟨?_, ?_, ?_, ?_⟩
  · intro h
    simp only [load_complete_pipeline, load_model_joblib, h]
  · intro b hb hp
    simp only [load_complete_pipeline, load_model_joblib, hb,
      load_preprocessing_components, hp]
  · intro b e lam tbl ov hb hp
    simp only [load_complete_pipeline, load_model_joblib, hb,
      load_preprocessing_components, hp]
  · intro b pb hb hp hnp
    cases pb with
    | model f =>
        simp only [load_complete_pipeline, load_model_joblib, hb,
          load_preprocessing_components, hp]
    | preproc e lam tbl ov => exact absurd rfl (hnp e lam tbl ov)
    | other =>
        simp only [load_complete_pipeline, load_model_joblib, hb,
          load_preprocessing_components, hp]

/-- C6 witness: the half-present store evaluated through the amended
claim's missing-preprocessing clause. -/
theorem C6_witness :
    load_complete_pipeline storeHalf ModelManager.empty "p" =
      ({ ModelManager.empty with model := some (Blob.model (fun _ => 0)) },
       Except.error (PyErr.fileNotFound ("p" ++ "_preprocessing.joblib"))) :=
  (C6_theorem storeHalf ModelManager.empty "p").2.1 (Blob.model (fun _ => 0)) rfl rfl

/-- C9 counterexample: with the shipped DEBUG setting (true), the global
exception handler's response body carries the internal exception's
message verbatim in its detail field, refuting the claim that the body
never includes the internal exception's message. -/
theorem C9_counterexample :
    global_exception_handler "ValueError: boom" =
      ⟨500, false, "Internal server error", "ValueError: boom"⟩ ∧
    "ValueError: boom" ≠ "An error occurred" := ⟨rfl, by decide⟩

/-- C9 (amended): the global handler converts every unhandled exception
into a generic 500 envelope (success false, error Internal server
error); the detail field is the generic sentence only when DEBUG is
false, while with the shipped DEBUG value (true) it echoes the internal
exception's message. -/
theorem C9_theorem (excMsg : String) :
    handlerWith false excMsg = ⟨500, false, "Internal server error", "An error occurred"⟩ ∧
    handlerWith true excMsg = ⟨500, false, "Internal server error", excMsg⟩ ∧
    global_exception_handler excMsg = handlerWith true excMsg ∧
    settings_DEBUG = true := ⟨rfl, rfl, rfl, rfl⟩

/-- The batch try body on a ready manager: one prediction per record,
enumerated in input order and paired with the input. -/
lemma batchTry_mkMgr (f : Row → ℚ) (c1 c2 c3 c4 c5 : List Cell) (lam : ℚ)
    (tbl : List (String × ℚ)) (ov : ℚ) (rs : List PredictionInput) :
    predictRevenueBatchTry (some (mkMgr (some (Blob.model f)) c1 c2 c3 c4 c5 lam tbl ov)) rs =
      Except.ok ⟨rs.length,
        List.map (fun ir => BatchItem.mk ir.1
          (f (servedRow (mkOhe c1 c2 c3 c4 c5) lam tbl ov ir.2)) ir.2) rs.enum⟩ := by
  have hp := predict_mkMgr f c1 c2 c3 c4 c5 lam tbl ov rs
  simp only [mkMgr] at hp
  simp only [predictRevenueBatchTry, mkMgr, hp]
  rw [zip_self_map, enum_map, List.map_map, List.length_map, List.enum_length]
  exact congrArg (fun z => Except.ok (BatchOut.mk rs.length z))
    (List.map_congr_left fun ir hir => rfl)

/-- The single endpoint on a ready manager. -/
lemma single_mkMgr (f : Row → ℚ) (c1 c2 c3 c4 c5 : List Cell) (lam : ℚ)
    (tbl : List (String × ℚ)) (ov : ℚ) (r : PredictionInput) :
    predict_revenue (some (mkMgr (some (Blob.model f)) c1 c2 c3 c4 c5 lam tbl ov)) r =
      Resp.ok ⟨f (servedRow (mkOhe c1 c2 c3 c4 c5) lam tbl ov r), r⟩ := by
  have hp := predict_mkMgr f c1 c2 c3 c4 c5 lam tbl ov [r]
  simp only [mkMgr] at hp
  simp only [predict_revenue, predictRevenueTry, mkMgr, hp]
  rfl

/-- C7: on a ready manager (model and trainer artifacts loaded), the
batch endpoint returns exactly one prediction per input record, in input
order, each entry carrying its index, the regressor's value on the
record's served row, and the original input record; and the prediction
the single endpoint returns for each of those records individually is
exactly that same value. -/
theorem C7_theorem (f : Row → ℚ) (c1 c2 c3 c4 c5 : List Cell) (lam : ℚ)
    (tbl : List (String × ℚ)) (ov : ℚ) (rs : List PredictionInput) :
    predict_revenue_batch (some (mkMgr (some (Blob.model f)) c1 c2 c3 c4 c5 lam tbl ov)) rs =
      Resp.ok ⟨rs.length,
        List.map (fun ir => BatchItem.mk ir.1
          (f (servedRow (mkOhe c1 c2 c3 c4 c5) lam tbl ov ir.2)) ir.2) rs.enum⟩ ∧
    (∀ r, r ∈ rs →
      predict_revenue (some (mkMgr (some (Blob.model f)) c1 c2 c3 c4 c5 lam tbl ov)) r =
        Resp.ok ⟨f (servedRow (mkOhe c1 c2 c3 c4 c5) lam tbl ov r), r⟩) := by
  constructor
  · simp only [predict_revenue_batch, batchTry_mkMgr]
  · intro r hr
    exact single_mkMgr f c1 c2 c3 c4 c5 lam tbl ov r

/-- C7 witness: a two-record batch evaluated concretely matches the two
individual predictions, in order. -/
theorem C7_witness :
    predict_revenue_batch (some (mkMgr (some (Blob.model (fun _ => 0))) cW1 cW2 cW3 cW4 cW5
        (7/20) [("Road-250", 1500)] 900)) [rW, rWunk] =
      Resp.ok ⟨[rW, rWunk].length,
        List.map (fun ir => BatchItem.mk ir.1
          ((fun _ => (0 : ℚ)) (servedRow (mkOhe cW1 cW2 cW3 cW4 cW5) (7/20) [("Road-250", 1500)] 900 ir.2)) ir.2)
          [rW, rWunk].enum⟩ ∧
    predict_revenue (some (mkMgr (some (Blob.model (fun _ => 0))) cW1 cW2 cW3 cW4 cW5
        (7/20) [("Road-250", 1500)] 900)) rW =
      Resp.ok ⟨(fun _ => (0 : ℚ)) (servedRow (mkOhe cW1 cW2 cW3 cW4 cW5) (7/20) [("Road-250", 1500)] 900 rW), rW⟩ :=
  ⟨(C7_theorem (fun _ => 0) cW1 cW2 cW3 cW4 cW5 (7/20) [("Road-250", 1500)] 900 [rW, rWunk]).1,
   (C7_theorem (fun _ => 0) cW1 cW2 cW3 cW4 cW5 (7/20) [("Road-250", 1500)] 900 [rW, rWunk]).2
     rW (List.mem_cons_self rW [rWunk])⟩

/-- C8: every fitted parameter of the trainer (the Box-Cox exponent, the
one-hot vocabulary, the target-encoding table and the overall-mean
fallback) is computed from the training partition only: two successful
runs on the same training partition but different evaluation partitions
produce identical fitted parameters (and an identical transformed
training partition), and the evaluation partition is then transformed
with exactly those fitted parameters. The maximum-likelihood exponent
search scipy performs numerically is abstracted as the function
parameter mleFn, so the statement holds for every estimator. -/
theorem C8_theorem (mleFn : List ℚ → ℚ) (train testA testB : DataFrame)
    (pA : FittedParams) (trA teA : DataFrame) (pB : FittedParams) (trB teB : DataFrame)
    (h1 : train_model_core mleFn train testA = Except.ok (pA, trA, teA))
    (h2 : train_model_core mleFn train testB = Except.ok (pB, trB, teB)) :
    pA = pB ∧ trA = trB ∧ applyTestTransform pA testA = Except.ok teA := by
  unfold train_model_core at h1 h2
  obtain ⟨fl, hfl, h1⟩ := bind_ok_inv h1
  obtain ⟨fl2, hfl2, h2⟩ := bind_ok_inv h2
  rw [hfl] at hfl2
  injection hfl2 with hfl2
  subst hfl2
  obtain ⟨t1A, ht1A, h1⟩ := bind_ok_inv h1
  obtain ⟨t1B, ht1B, h2⟩ := bind_ok_inv h2
  obtain ⟨ohe, hohe, h1⟩ := bind_ok_inv h1
  obtain ⟨ohe2, hohe2, h2⟩ := bind_ok_inv h2
  rw [hohe] at hohe2
  injection hohe2 with hohe2
  subst hohe2
  obtain ⟨tr2, htr2, h1⟩ := bind_ok_inv h1
  obtain ⟨tr2B, htr2B, h2⟩ := bind_ok_inv h2
  rw [htr2] at htr2B
  injection htr2B with htr2B
  subst htr2B
  obtain ⟨t2A, ht2A, h1⟩ := bind_ok_inv h1
  obtain ⟨t2B, ht2B, h2⟩ := bind_ok_inv h2
  obtain ⟨ptm, hptm, h1⟩ := bind_ok_inv h1
  obtain ⟨ptm2, hptm2, h2⟩ := bind_ok_inv h2
  rw [hptm] at hptm2
  injection hptm2 with hptm2
  subst hptm2
  obtain ⟨ovm, hovm, h1⟩ := bind_ok_inv h1
  obtain ⟨ovm2, hovm2, h2⟩ := bind_ok_inv h2
  rw [hovm] at hovm2
  injection hovm2 with hovm2
  subst hovm2
  simp only [Except.ok.injEq, Prod.mk.injEq] at h1 h2
  obtain ⟨hpA, htrA, hteA⟩ := h1
  obtain ⟨hpB, htrB, hteB⟩ := h2
  refine ⟨hpA ▸ hpB ▸ rfl, htrA ▸ htrB ▸ rfl, ?_⟩
  subst hpA
  simp only [applyTestTransform]
  rw [ht1A]
  show (do
    let t2 ← oheStep ohe t1A
    Except.ok (targetStep ptm ovm t2) : Except PyErr DataFrame) = _
  rw [ht2A]
  show Except.ok (targetStep ptm ovm t2A) = _
  rw [hteA]

/-- C8 witness: the trainer evaluated on the tiny concrete partitions,
with a concrete exponent estimator. -/
theorem C8_witness :
    coreResW.1 = coreResW.1 ∧ coreResW.2.1 = coreResW.2.1 ∧
    applyTestTransform coreResW.1 testW = Except.ok coreResW.2.2 :=
  C8_theorem mleW trainW testW testW coreResW.1 coreResW.2.1 coreResW.2.2
    coreResW.1 coreResW.2.1 coreResW.2.2 rfl rfl

/-- C10: preprocess_new_data and predict leave all caller-visible state
unchanged: the caller's frame after the call is the frame passed in
(the transform works on the copy taken at line 246 of model_manager.py
and every later in-place operation targets that copy), the manager's
model and four encoding artifacts are identical before and after, and
the returned value is a pure function of the pre-call state. -/
theorem C10_theorem (st : ModelManager) (df : DataFrame) :
    preprocess_run st df = ((st, df), preprocess_new_data st df) ∧
    predict_run st df = ((st, df), ModelManager.predict st df) := ⟨rfl, rfl⟩

end AW
